import Mathlib

/-!
Verification of the best-practices interception-layer generator
(`scripts/generators/best_practices_generator.py`).

The generator is a single deterministic pass over a read-only registry of
API commands and extensions.  It is embedded here shallowly: Python strings
become `String` (worked on through their character lists), the mutable
`out` buffers become the lists of appended fragments, and the `IndexError`
abort on a malformed prototype becomes `Option`.
-/

set_option linter.unusedVariables false
set_option maxRecDepth 8000

/-! ### Python string primitives -/

/-- Python slicing `s[n:]` (drop the first `n` characters). -/
def pyDrop (s : String) (n : Nat) : String :=
  String.mk (s.data.drop n)

/-- Python `sep.join(xs)`. -/
def pyJoin (sep : String) (xs : List String) : String :=
  String.mk (List.intercalate sep.data (xs.map String.data))

/-- Python `sub in s` (substring containment). -/
def pyContains (s sub : String) : Bool :=
  decide (sub.data <:+: s.data)

/-- Python `s.startswith(p)`; used to classify emitted fragments. -/
def pyStartsWith (s p : String) : Bool :=
  p.data.isPrefixOf s.data

/-- Replacement loop over a character list: replaces every left-most,
non-overlapping occurrence of `pat` by `rep`, as Python `str.replace`
does.  `fuel` bounds the recursion; instantiating it with the length of
the subject suffices whenever `pat` is nonempty. -/
def replLoop (pat rep : List Char) : Nat → List Char → List Char
  | _, [] => []
  | 0, s => s
  | fuel+1, c :: rest =>
    if pat.isPrefixOf (c :: rest) then
      rep ++ replLoop pat rep fuel ((c :: rest).drop pat.length)
    else
      c :: replLoop pat rep fuel rest

/-- Python `s.replace(pat, rep)` for nonempty `pat`. -/
def pyReplace (s pat rep : String) : String :=
  String.mk (replLoop pat.data rep.data s.data.length s.data)

/-- Splitting loop for Python `s.split(sep)` with nonempty `sep`;
`acc` holds the current segment reversed, `fuel` bounds the recursion. -/
def splitLoop (sep : List Char) : Nat → List Char → List Char → List (List Char)
  | 0, acc, s => [acc.reverse ++ s]
  | _+1, acc, [] => [acc.reverse]
  | fuel+1, acc, c :: rest =>
    if sep.isPrefixOf (c :: rest) then
      acc.reverse :: splitLoop sep fuel [] ((c :: rest).drop sep.length)
    else
      splitLoop sep fuel (c :: acc) rest

/-- Python `s.split(sep)` for nonempty `sep`. -/
def pySplit (s sep : String) : List String :=
  (splitLoop sep.data s.data.length [] s.data).map String.mk

/-! ### Data model (registry entities, fields read by the generator) -/

/-- One callable API function description (`vulkan_object` command). -/
structure Command where
  name : String
  returnType : String
  /-- Ordered parameter names (`param.name` for `param` in `command.params`). -/
  params : List String
  successCodes : Option (List String)
  errorCodes : Option (List String)
  alias' : Option String
  protect : Option String
  cPrototype : String
  deriving DecidableEq, Repr

/-- One API extension description with its lifecycle metadata. -/
structure Extension where
  name : String
  promotedTo : Option String
  obsoletedBy : Option String
  deprecatedBy : Option String
  specialUse : Option (List String)
  deriving DecidableEq, Repr

/-- The registry (`self.vk`): ordered commands and extensions. -/
structure Registry where
  commands : List Command
  extensions : List Extension
  deriving DecidableEq, Repr

/-! ### Fixed manual lists (constructor of `BestPracticesOutputGenerator`) -/

/-- Commands which are not autogenerated but still intercepted
(initial value of `self.no_autogen_list`). -/
def noAutogenInitList : List String :=
  ["vkEnumerateInstanceVersion",
   "vkCreateValidationCacheEXT",
   "vkDestroyValidationCacheEXT",
   "vkMergeValidationCachesEXT",
   "vkGetValidationCacheDataEXT"]

/-- Commands that require an extra parameter for state sharing between
validate/record steps (`self.extra_parameter_list`). -/
def extraParameterList : List String :=
  ["vkCreateShaderModule",
   "vkCreateShadersEXT",
   "vkCreateGraphicsPipelines",
   "vkCreateComputePipelines",
   "vkAllocateDescriptorSets",
   "vkCreateRayTracingPipelinesNV",
   "vkCreateRayTracingPipelinesKHR"]

/-- Commands that have a manually written post-call-record step
(`self.manual_postcallrecord_list`). -/
def manualPostcallrecordList : List String :=
  ["vkAllocateDescriptorSets",
   "vkQueuePresentKHR",
   "vkQueueBindSparse",
   "vkCreateGraphicsPipelines",
   "vkGetPhysicalDeviceSurfaceCapabilitiesKHR",
   "vkGetPhysicalDeviceSurfaceCapabilities2KHR",
   "vkGetPhysicalDeviceSurfaceCapabilities2EXT",
   "vkGetPhysicalDeviceSurfacePresentModesKHR",
   "vkGetPhysicalDeviceSurfaceFormatsKHR",
   "vkGetPhysicalDeviceSurfaceFormats2KHR",
   "vkGetPhysicalDeviceDisplayPlanePropertiesKHR",
   "vkGetSwapchainImagesKHR",
   "vkCreateComputePipelines",
   "vkCmdPipelineBarrier",
   "vkQueueSubmit"]

/-! ### Eligibility -/

/-- If there is another success code other than `VK_SUCCESS`. -/
def hasNonVkSuccess : Option (List String) → Bool
  | none => false
  | some successCodes =>
    if successCodes.length == 0 then false
    else decide (successCodes.length > 1) || !(successCodes.contains "VK_SUCCESS")

/-- `self.no_autogen_list` after the additional pass in `generate`: the
name of every command whose return type is not `VkResult`, and of every
command with no error codes and no non-`VK_SUCCESS` success code, is
appended to the initial manual list. -/
def noAutogenList (reg : Registry) : List String :=
  reg.commands.foldl
    (fun acc c =>
      let acc := if c.returnType ≠ "VkResult" then acc ++ [c.name] else acc
      if c.errorCodes = none ∧ hasNonVkSuccess c.successCodes = false then acc ++ [c.name]
      else acc)
    noAutogenInitList

/-- Whether the emitters skip this command (`x.name in self.no_autogen_list`). -/
def excludedB (reg : Registry) (c : Command) : Bool :=
  (noAutogenList reg).contains c.name

/-- The commands both emitters iterate over, in registry order
(`[x for x in self.vk.commands.values() if x.name not in self.no_autogen_list]`). -/
def eligibleCommands (reg : Registry) : List Command :=
  reg.commands.filter (fun x => !(noAutogenList reg).contains x.name)

/-! ### Guard coalescer -/

/-- Modelled from the spec: `PlatformGuardHelper.add_guard` from
`generator_utils` is not part of this repository snapshot.  It tracks the
currently open platform-guard condition; a call with a changed condition
closes the open block (if any) and opens a block for the new condition
(if present); with `extraNewline` a blank line precedes each marker. -/
def addGuardText (extraNewline : Bool) (st new : Option String) : List String :=
  if new = st then []
  else
    (match st with
      | some g => (if extraNewline then ["\n"] else []) ++ ["#endif  // " ++ (g ++ "\n")]
      | none => []) ++
    (match new with
      | some g => (if extraNewline then ["\n"] else []) ++ ["#ifdef " ++ (g ++ "\n")]
      | none => [])

/-! ### Header emitter (`generateHeader`) -/

/-- `command.cPrototype.split("VKAPI_CALL ")[1]`; `none` models the
`IndexError` abort when the marker is absent. -/
def vkapiTail (c : Command) : Option String :=
  (pySplit c.cPrototype "VKAPI_CALL ").get? 1

/-- The declaration rendered for one command in `generateHeader`, given
the prototype tail after the `VKAPI_CALL ` marker. -/
def headerDeclFrom (c : Command) (tail : String) : String :=
  let p0 := "void PostCallRecord" ++ pyDrop tail 2
  let p1 := pyReplace p0 ");" ", const RecordObject& record_obj) \x7b\n"
  let p2 := pyReplace p1 ") \x7b" ") override;\n"
  if extraParameterList.contains c.name then pyReplace p2 ")" ", void* state_data)" else p2

/-- Total rendering used in statements; under successful generation it is
exactly what the emitter appended. -/
def headerDeclOf (c : Command) : String :=
  headerDeclFrom c ((vkapiTail c).getD "")

/-- The `generateHeader` loop, threading the open guard condition;
`none` models the abort when a prototype lacks the marker. -/
def headerLoop : Option String → List Command → Option (List String)
  | st, [] => some (addGuardText false st none)
  | st, c :: rest =>
    match vkapiTail c with
    | none => none
    | some _ =>
      (headerLoop c.protect rest).map
        (fun out => addGuardText false st c.protect ++ [headerDeclOf c] ++ out)

/-- The list of fragments `generateHeader` joins and writes. -/
def generateHeaderOut (reg : Registry) : Option (List String) :=
  headerLoop none (eligibleCommands reg)

/-! ### Source emitter (`generateSource`) -/

/-- The definition signature rendered for one command in `generateSource`. -/
def sourceSigOf (c : Command) : String :=
  let tail := (vkapiTail c).getD ""
  let p0 := "void BestPractices::PostCallRecord" ++ pyDrop tail 2
  let p1 := pyReplace p0 ");" ", const RecordObject& record_obj) \x7b\n"
  if extraParameterList.contains c.name then pyReplace p1 ")" ", void* state_data)" else p1

/-- Python truthiness of `command.alias` (`if command.alias:`). -/
def aliasTruthy : Option String → Bool
  | none => false
  | some a => !(a == "")

/-- `', '.join(paramList)` with `record_obj` and, for commands in the
extra-parameter list, `state_data` appended. -/
def paramsStr (c : Command) : String :=
  pyJoin ", "
    (c.params ++ ["record_obj"] ++
      (if extraParameterList.contains c.name then ["state_data"] else []))

/-- The positive-success logging branch emitted when `hasNonVkSuccess`. -/
def successBranchText : String :=
  "\n                        if (record_obj.result > VK_SUCCESS) \x7b\n                            LogPositiveSuccessCode(record_obj);\n                            return;\n                        \x7d"

/-- The error logging branch emitted when the command declares error codes. -/
def errorBranchText : String :=
  "\n                        if (record_obj.result < VK_SUCCESS) \x7b\n                            LogErrorCode(record_obj);\n                        \x7d"

/-- The body fragments emitted for one command between its signature and
the closing brace in `generateSource`. -/
def commandBody (c : Command) : List String :=
  if aliasTruthy c.alias' then
    ["PostCallRecord" ++ (pyDrop (c.alias'.getD "") 2 ++ ("(" ++
      (pyJoin ", " (c.params ++ ["record_obj"]) ++ ");")))]
  else
    ["ValidationStateTracker::PostCallRecord" ++ (pyDrop c.name 2 ++ ("(" ++ (paramsStr c ++ ");\n")))] ++
    (if manualPostcallrecordList.contains c.name then
      ["ManualPostCallRecord" ++ (pyDrop c.name 2 ++ ("(" ++ (paramsStr c ++ ");\n")))]
    else []) ++
    (if hasNonVkSuccess c.successCodes then [successBranchText] else []) ++
    (if c.errorCodes.isSome then [errorBranchText] else [])

/-- Classification of the deprecation target string. -/
def deprecationTarget (target : String) : String :=
  if target.length == 0 then "vvl::Extension::Empty"
  else if pyContains target "VERSION" then "vvl::Version::_" ++ target
  else "vvl::Extension::" ++ pyDrop target 3

/-- The deprecation-table row for one extension: `none` when none of
promoted-to / obsoleted-by / deprecated-by is set (`continue`), otherwise
the rendered row with the first set field (in that fixed order) choosing
the reason and target. -/
def deprecationRow (e : Extension) : Option String :=
  let chosen : Option (String × String) :=
    match e.promotedTo with
    | some t => some ("DeprecationReason::Promoted", t)
    | none =>
      match e.obsoletedBy with
      | some t => some ("DeprecationReason::Obsoleted", t)
      | none =>
        match e.deprecatedBy with
        | some t => some ("DeprecationReason::Deprecated", t)
        | none => none
  chosen.map (fun rt =>
    "    \x7bvvl::Extension::" ++ (pyDrop e.name 3 ++ (", \x7b" ++ (rt.1 ++ (", \x7b" ++
      (deprecationTarget rt.2 ++ "\x7d\x7d\x7d,\n"))))))

/-- The special-use-table row for one extension: emitted whenever the
`specialUse` field is present (`if extension.specialUse is not None`). -/
def specialUseRow (e : Extension) : Option String :=
  match e.specialUse with
  | none => none
  | some tags =>
    some ("    \x7bvvl::Extension::" ++ (pyDrop e.name 3 ++ (", \"" ++ (pyJoin ", " tags ++ "\"\x7d,\n"))))

/-- Fixed text opening `GetDeprecatedData` (first triple-quoted block). -/
def sourcePre : String :=
  "\n            #include \"chassis.h\"\n            #include \"best_practices/best_practices_validation.h\"\n\n            DeprecationData GetDeprecatedData(vvl::Extension extension_name) \x7b\n                static const DeprecationData empty_deprecated_data\x7bDeprecationReason::Empty, vvl::Extension::Empty\x7d;\n                static const vvl::unordered_map<vvl::Extension, DeprecationData> deprecated_extensions = \x7b\n            "

/-- Fixed text closing the deprecation table and opening `GetSpecialUse`. -/
def sourceMid : String :=
  "    \x7d;\n\n                auto it = deprecated_extensions.find(extension_name);\n                return (it == deprecated_extensions.end()) ? empty_deprecated_data : it->second;\n            \x7d\n\n            std::string GetSpecialUse(vvl::Extension extension_name) \x7b\n                const vvl::unordered_map<vvl::Extension, std::string> special_use_extensions = \x7b\n            "

/-- Fixed text closing the special-use table. -/
def sourceMid2 : String :=
  "    \x7d;\n\n                auto it = special_use_extensions.find(extension_name);\n                return (it == special_use_extensions.end()) ? \"\" : it->second;\n            \x7d\n            "

/-- The `generateSource` per-command loop, threading the open guard
condition; `none` models the abort when a prototype lacks the marker. -/
def sourceLoop : Option String → List Command → Option (List String)
  | st, [] => some (addGuardText true st none)
  | st, c :: rest =>
    match vkapiTail c with
    | none => none
    | some _ =>
      (sourceLoop c.protect rest).map
        (fun out =>
          addGuardText true st c.protect ++ [sourceSigOf c] ++ commandBody c ++ ["\x7d\n"] ++ out)

/-- The list of fragments `generateSource` joins and writes. -/
def generateSourceOut (reg : Registry) : Option (List String) :=
  (sourceLoop none (eligibleCommands reg)).map
    (fun cmds =>
      [sourcePre] ++ (reg.extensions.filterMap deprecationRow) ++ [sourceMid] ++
        (reg.extensions.filterMap specialUseRow) ++ [sourceMid2] ++ cmds)

/-! ### Driver (`generate`) -/

/-- The generated-file banner written first by `generate`
(`os.path.basename(__file__)` is the constant script name). -/
def bannerText : String :=
  "// *** THIS FILE IS GENERATED - DO NOT EDIT ***\n            // See best_practices_generator.py for modifications\n\n            /***************************************************************************\n            *\n            * Copyright (c) 2015-2024 The Khronos Group Inc.\n            * Copyright (c) 2015-2024 Valve Corporation\n            * Copyright (c) 2015-2024 LunarG, Inc.\n            *\n            * Licensed under the Apache License, Version 2.0 (the \"License\");\n            * you may not use this file except in compliance with the License.\n            * You may obtain a copy of the License at\n            *\n            *     http://www.apache.org/licenses/LICENSE-2.0\n            *\n            * Unless required by applicable law or agreed to in writing, software\n            * distributed under the License is distributed on an \"AS IS\" BASIS,\n            * WITHOUT WARRANTIES OR CONDITIONS OF ANY KIND, either express or implied.\n            * See the License for the specific language governing permissions and\n            * limitations under the License.\n            ****************************************************************************/\n"

/-- The full `generate` entry point: banner, lint-suppression wrapper, and
the artifact selected by the requested file name (any other name yields
the diagnostic no-op line). -/
def generate (reg : Registry) (filename : String) : Option (List String) :=
  (if filename == "best_practices.h" then generateHeaderOut reg
   else if filename == "best_practices.cpp" then generateSourceOut reg
   else some ["\nFile name " ++ filename ++ " has no code to generate\n"]).map
    (fun body => [bannerText, "// NOLINTBEGIN"] ++ body ++ ["// NOLINTEND"])

/-! ### Toolkit: strings through their character lists -/

theorem data_inj {s t : String} (h : s.data = t.data) : s = t := by
  cases s
  cases t
  exact congrArg String.mk h

theorem contains_eq_true_iff (l : List String) (s : String) :
    l.contains s = true ↔ s ∈ l := by
  simp [List.contains, List.elem_iff]

theorem isPrefixOf_eq_true_iff (l1 l2 : List Char) : l1.isPrefixOf l2 = true ↔ l1 <+: l2 :=
  List.isPrefixOf_iff_prefix

theorem isPrefixOf_self_append (l1 l2 : List Char) : l1.isPrefixOf (l1 ++ l2) = true :=
  (isPrefixOf_eq_true_iff _ _).mpr (List.prefix_append _ _)

theorem isPrefixOf_cons_ne (a b : Char) (h : a ≠ b) (l1 l2 : List Char) :
    List.isPrefixOf (a :: l1) (b :: l2) = false := by
  simp [List.isPrefixOf, h]

theorem head?_append_left (a x : String) (ha : a.data ≠ []) :
    (a ++ x).data.head? = a.data.head? := by
  rw [String.data_append]
  exact List.head?_append_of_ne_nil _ ha

theorem ne_of_data_head {s t : String} {c d : Char}
    (hc : s.data.head? = some c) (hd : t.data.head? = some d) (h : c ≠ d) : s ≠ t := by
  intro he
  rw [he, hd] at hc
  exact h (Option.some.inj hc).symm

/-! ### Toolkit: the replacement loop -/

theorem replLoop_nil (pat rep : List Char) (fuel : Nat) : replLoop pat rep fuel [] = [] := by
  cases fuel <;> rfl

theorem replLoop_fuel_congr (pat rep : List Char) (hpat : pat ≠ []) :
    ∀ (f1 : Nat) {f2 : Nat} (s : List Char), s.length ≤ f1 → s.length ≤ f2 →
      replLoop pat rep f1 s = replLoop pat rep f2 s := by
  intro f1
  induction f1 with
  | zero =>
    intro f2 s h1 h2
    have hs : s = [] := List.eq_nil_of_length_eq_zero (Nat.le_zero.mp h1)
    subst hs
    simp [replLoop_nil]
  | succ f ih =>
    intro f2 s h1 h2
    match s with
    | [] => simp [replLoop_nil]
    | c :: rest =>
      match f2, h2 with
      | g+1, h2 =>
        show replLoop pat rep (f+1) (c :: rest) = replLoop pat rep (g+1) (c :: rest)
        simp only [replLoop]
        by_cases hp : pat.isPrefixOf (c :: rest)
        · rw [if_pos hp, if_pos hp]
          have hlen : ((c :: rest).drop pat.length).length ≤ rest.length := by
            have hpl : 1 ≤ pat.length := by
              cases pat with
              | nil => exact absurd rfl hpat
              | cons p ps => simp
            simp [List.length_drop]
            omega
          have hr1 : rest.length ≤ f := Nat.succ_le_succ_iff.mp h1
          have hr2 : rest.length ≤ g := Nat.succ_le_succ_iff.mp h2
          exact congrArg (rep ++ ·) (ih _ (le_trans hlen hr1) (le_trans hlen hr2))
        · rw [if_neg hp, if_neg hp]
          exact congrArg (c :: ·) (ih rest (Nat.succ_le_succ_iff.mp h1) (Nat.succ_le_succ_iff.mp h2))

theorem replLoop_append_left (sh : Char) (pt rep : List Char) :
    ∀ (a b : List Char), sh ∉ a →
      replLoop (sh :: pt) rep (a ++ b).length (a ++ b) =
        a ++ replLoop (sh :: pt) rep b.length b := by
  intro a
  induction a with
  | nil => intro b _; simp
  | cons x a' ih =>
    intro b ha
    have hx : sh ≠ x := fun h => ha (h ▸ List.mem_cons_self x a')
    have ha' : sh ∉ a' := fun h => ha (List.mem_cons_of_mem x h)
    show replLoop (sh :: pt) rep ((a' ++ b).length + 1) (x :: (a' ++ b)) = _
    simp only [replLoop, isPrefixOf_cons_ne sh x hx, if_false, Bool.false_eq_true]
    exact congrArg (x :: ·) (ih b ha')

theorem replLoop_pat_here (pat rep b : List Char) (hpat : pat ≠ []) :
    replLoop pat rep (pat ++ b).length (pat ++ b) = rep ++ replLoop pat rep b.length b := by
  match pat, hpat with
  | sh :: pt, _ =>
    show replLoop (sh :: pt) rep ((pt ++ b).length + 1) (sh :: (pt ++ b)) = _
    have hpre : (sh :: pt).isPrefixOf (sh :: (pt ++ b)) = true := by
      have : (sh :: pt) ++ b = sh :: (pt ++ b) := rfl
      rw [← this]
      exact isPrefixOf_self_append _ _
    simp only [replLoop, hpre, if_true]
    have hdrop : (sh :: (pt ++ b)).drop (sh :: pt).length = b := by
      have : sh :: (pt ++ b) = (sh :: pt) ++ b := rfl
      rw [this]
      exact List.drop_left _ _
    rw [hdrop]
    refine congrArg (rep ++ ·) (replLoop_fuel_congr _ _ (by simp) _ _ ?_ le_rfl)
    simp

theorem pyReplace_append_left (a b pat rep : String) (sh : Char) (pt : List Char)
    (hpat : pat.data = sh :: pt) (ha : sh ∉ a.data) :
    pyReplace (a ++ b) pat rep = a ++ pyReplace b pat rep := by
  apply data_inj
  show replLoop pat.data rep.data (a ++ b).data.length (a ++ b).data = _
  rw [String.data_append, String.data_append, hpat]
  show _ = a.data ++ replLoop pat.data rep.data b.data.length b.data
  rw [hpat]
  exact replLoop_append_left sh pt rep.data a.data b.data ha

theorem pyReplace_pat_here (b pat rep : String) (hpat : pat.data ≠ []) :
    pyReplace (pat ++ b) pat rep = rep ++ pyReplace b pat rep := by
  apply data_inj
  show replLoop pat.data rep.data (pat ++ b).data.length (pat ++ b).data = _
  rw [String.data_append]
  show _ = rep.data ++ replLoop pat.data rep.data b.data.length b.data
  exact replLoop_pat_here pat.data rep.data b.data hpat

theorem pyReplace_boundary (a pat b rep : String) (sh : Char) (pt : List Char)
    (hpat : pat.data = sh :: pt) (ha : sh ∉ a.data) :
    pyReplace (a ++ (pat ++ b)) pat rep = a ++ (rep ++ pyReplace b pat rep) := by
  rw [pyReplace_append_left a (pat ++ b) pat rep sh pt hpat ha,
    pyReplace_pat_here b pat rep (by rw [hpat]; simp)]

theorem pyReplace_empty (pat rep : String) : pyReplace "" pat rep = "" := rfl

theorem pyReplace_no_head (s pat rep : String) (sh : Char) (pt : List Char)
    (hpat : pat.data = sh :: pt) (hs : sh ∉ s.data) :
    pyReplace s pat rep = s := by
  have h : pyReplace (s ++ "") pat rep = s ++ pyReplace "" pat rep :=
    pyReplace_append_left s "" pat rep sh pt hpat hs
  rw [pyReplace_empty] at h
  have hs0 : s ++ "" = s := data_inj (by rw [String.data_append]; simp [show ("" : String).data = [] from rfl])
  rwa [hs0] at h

/-! ### Toolkit: the splitting loop and the marker lookup -/

theorem splitLoop_no_occur (sh : Char) (sp : List Char) :
    ∀ (s acc : List Char) (fuel : Nat), s.length ≤ fuel → ¬((sh :: sp) <:+: s) →
      splitLoop (sh :: sp) fuel acc s = [acc.reverse ++ s] := by
  intro s
  induction s with
  | nil =>
    intro acc fuel _ _
    cases fuel <;> simp [splitLoop]
  | cons c rest ih =>
    intro acc fuel hf hocc
    match fuel, hf with
    | f+1, hf =>
      show splitLoop (sh :: sp) (f+1) acc (c :: rest) = _
      have hp : (sh :: sp).isPrefixOf (c :: rest) = false := by
        by_contra h
        exact hocc (((isPrefixOf_eq_true_iff _ _).mp (Bool.of_not_eq_false h)).isInfix)
      simp only [splitLoop, hp, Bool.false_eq_true, if_false]
      rw [ih (c :: acc) f (Nat.succ_le_succ_iff.mp hf) (fun h => hocc (List.infix_cons h))]
      simp

theorem splitLoop_length_pos (sep : List Char) :
    ∀ (fuel : Nat) (acc s : List Char), 0 < (splitLoop sep fuel acc s).length := by
  intro fuel
  induction fuel with
  | zero => intro acc s; simp [splitLoop]
  | succ f ih =>
    intro acc s
    cases s with
    | nil => simp [splitLoop]
    | cons c rest =>
      show 0 < (splitLoop sep (f+1) acc (c :: rest)).length
      simp only [splitLoop]
      by_cases hp : sep.isPrefixOf (c :: rest)
      · simp [hp]
      · simp only [hp, Bool.false_eq_true, if_false]
        exact ih _ _

theorem splitLoop_length_two_of_occur (sh : Char) (sp : List Char) :
    ∀ (s acc : List Char) (fuel : Nat), s.length ≤ fuel → (sh :: sp) <:+: s →
      2 ≤ (splitLoop (sh :: sp) fuel acc s).length := by
  intro s
  induction s with
  | nil =>
    intro acc fuel _ hocc
    rcases hocc with ⟨p, q, hpq⟩
    simp at hpq
  | cons c rest ih =>
    intro acc fuel hf hocc
    match fuel, hf with
    | f+1, hf =>
      show 2 ≤ (splitLoop (sh :: sp) (f+1) acc (c :: rest)).length
      simp only [splitLoop]
      by_cases hp : (sh :: sp).isPrefixOf (c :: rest)
      · simp only [hp, if_true]
        exact Nat.succ_le_succ (splitLoop_length_pos (sh :: sp) f [] ((c :: rest).drop (sh :: sp).length))
      · simp only [hp, Bool.false_eq_true, if_false]
        rcases List.infix_cons_iff.mp hocc with hpre | hinf
        · exact absurd ((isPrefixOf_eq_true_iff _ _).mpr hpre) (by simp [hp])
        · exact ih (c :: acc) f (Nat.succ_le_succ_iff.mp hf) hinf

theorem pySplit_no_occur (s sep : String) (sh : Char) (sp : List Char)
    (hsep : sep.data = sh :: sp) (h : ¬(sep.data <:+: s.data)) :
    pySplit s sep = [s] := by
  unfold pySplit
  rw [hsep] at h ⊢
  rw [splitLoop_no_occur sh sp s.data [] s.data.length le_rfl h]
  simp [data_inj]

theorem vkapiTail_isSome_eq (c : Command) :
    (vkapiTail c).isSome = pyContains c.cPrototype "VKAPI_CALL " := by
  by_cases h : "VKAPI_CALL ".data <:+: c.cPrototype.data
  · have h2 : 2 ≤ (pySplit c.cPrototype "VKAPI_CALL ").length := by
      unfold pySplit
      rw [List.length_map]
      exact splitLoop_length_two_of_occur 'V' ("KAPI_CALL ".data) c.cPrototype.data []
        c.cPrototype.data.length le_rfl h
    unfold vkapiTail
    rcases ho : (pySplit c.cPrototype "VKAPI_CALL ").get? 1 with _ | v
    · rw [List.get?_eq_none] at ho
      omega
    · simp [pyContains, h]
  · have := pySplit_no_occur c.cPrototype "VKAPI_CALL " 'V' ("KAPI_CALL ".data) rfl h
    unfold vkapiTail
    rw [this]
    simp [pyContains, h]

theorem vkapiTail_none_of_no_marker (c : Command)
    (h : pyContains c.cPrototype "VKAPI_CALL " = false) : vkapiTail c = none := by
  cases hv : vkapiTail c with
  | none => rfl
  | some v =>
    have hs := vkapiTail_isSome_eq c
    rw [hv, h] at hs
    cases hs

/-! ### Toolkit: classifying emitted fragments by their first character -/

theorem pyStartsWith_append_self (p x : String) : pyStartsWith (p ++ x) p = true := by
  unfold pyStartsWith
  rw [String.data_append]
  exact isPrefixOf_self_append _ _

theorem pyStartsWith_false_of_head (s p : String) (c d : Char)
    (hc : s.data.head? = some c) (hd : p.data.head? = some d) (h : d ≠ c) :
    pyStartsWith s p = false := by
  unfold pyStartsWith
  rcases hsd : s.data with _ | ⟨c', cs⟩
  · rw [hsd] at hc
    cases hc
  · rcases hpd : p.data with _ | ⟨d', ds⟩
    · rw [hpd] at hd
      cases hd
    · rw [hsd] at hc
      rw [hpd] at hd
      have hc' : c' = c := Option.some.inj hc
      have hd' : d' = d := Option.some.inj hd
      rw [hc', hd']
      exact isPrefixOf_cons_ne d c h ds cs

theorem append_data_ne_nil_left (p x : String) (hp : p.data ≠ []) : (p ++ x).data ≠ [] := by
  rw [String.data_append]
  intro h
  exact hp (List.append_eq_nil.mp h).1

theorem head?_lit_append (p : String) (c : Char) (cs : List Char) (hp : p.data = c :: cs)
    (x : String) : (p ++ x).data.head? = some c := by
  rw [head?_append_left p x (by rw [hp]; simp), hp]
  rfl

theorem addGuardText_cases (en : Bool) (st nw : Option String) (s : String)
    (hs : s ∈ addGuardText en st nw) :
    s = "\n" ∨ (∃ g, s = "#endif  // " ++ (g ++ "\n")) ∨ (∃ g, s = "#ifdef " ++ (g ++ "\n")) := by
  unfold addGuardText at hs
  by_cases h : nw = st
  · rw [if_pos h] at hs
    cases hs
  · rw [if_neg h] at hs
    rcases List.mem_append.mp hs with h1 | h1
    · cases st with
      | none => cases h1
      | some g =>
        rcases List.mem_append.mp h1 with h2 | h2
        · by_cases hen : en = true
          · rw [if_pos hen] at h2
            exact Or.inl (List.mem_singleton.mp h2)
          · rw [if_neg hen] at h2
            cases h2
        · exact Or.inr (Or.inl ⟨g, List.mem_singleton.mp h2⟩)
    · cases nw with
      | none => cases h1
      | some g =>
        rcases List.mem_append.mp h1 with h2 | h2
        · by_cases hen : en = true
          · rw [if_pos hen] at h2
            exact Or.inl (List.mem_singleton.mp h2)
          · rw [if_neg hen] at h2
            cases h2
        · exact Or.inr (Or.inr ⟨g, List.mem_singleton.mp h2⟩)

theorem addGuardText_head (en : Bool) (st nw : Option String) (s : String)
    (hs : s ∈ addGuardText en st nw) :
    s.data.head? = some '#' ∨ s.data.head? = some '\n' := by
  rcases addGuardText_cases en st nw s hs with rfl | ⟨g, rfl⟩ | ⟨g, rfl⟩
  · exact Or.inr rfl
  · exact Or.inl (head?_lit_append "#endif  // " '#' ("endif  // ".data) rfl _)
  · exact Or.inl (head?_lit_append "#ifdef " '#' ("ifdef ".data) rfl _)

theorem commandBody_head (c : Command) (s : String) (hs : s ∈ commandBody c) :
    s.data.head? = some 'P' ∨ s.data.head? = some 'V' ∨ s.data.head? = some 'M' ∨
      s.data.head? = some '\n' := by
  unfold commandBody at hs
  by_cases ha : aliasTruthy c.alias' = true
  · rw [if_pos ha] at hs
    rw [List.mem_singleton.mp hs]
    exact Or.inl (head?_lit_append "PostCallRecord" 'P' ("ostCallRecord".data) rfl _)
  · rw [if_neg ha] at hs
    rcases List.mem_append.mp hs with h1 | h1
    · rcases List.mem_append.mp h1 with h2 | h2
      · rcases List.mem_append.mp h2 with h3 | h3
        · rw [List.mem_singleton.mp h3]
          exact Or.inr (Or.inl (head?_lit_append "ValidationStateTracker::PostCallRecord" 'V'
            ("alidationStateTracker::PostCallRecord".data) rfl _))
        · by_cases hm : manualPostcallrecordList.contains c.name = true
          · rw [if_pos hm] at h3
            rw [List.mem_singleton.mp h3]
            exact Or.inr (Or.inr (Or.inl (head?_lit_append "ManualPostCallRecord" 'M'
              ("anualPostCallRecord".data) rfl _)))
          · rw [if_neg hm] at h3
            cases h3
      · by_cases hsc : hasNonVkSuccess c.successCodes = true
        · rw [if_pos hsc] at h2
          rw [List.mem_singleton.mp h2]
          exact Or.inr (Or.inr (Or.inr rfl))
        · rw [if_neg hsc] at h2
          cases h2
    · by_cases he : c.errorCodes.isSome = true
      · rw [if_pos he] at h1
        rw [List.mem_singleton.mp h1]
        exact Or.inr (Or.inr (Or.inr rfl))
      · rw [if_neg he] at h1
        cases h1

theorem deprecationRow_head (e : Extension) (s : String) (hr : deprecationRow e = some s) :
    s.data.head? = some ' ' := by
  unfold deprecationRow at hr
  rcases Option.map_eq_some'.mp hr with ⟨rt, _, hrender⟩
  rw [← hrender]
  exact head?_lit_append "    \x7bvvl::Extension::" ' ' ("   \x7bvvl::Extension::".data) rfl _

theorem specialUseRow_head (e : Extension) (s : String) (hr : specialUseRow e = some s) :
    s.data.head? = some ' ' := by
  unfold specialUseRow at hr
  rcases he : e.specialUse with _ | tags
  · rw [he] at hr
    cases hr
  · rw [he] at hr
    rw [← Option.some.inj hr]
    exact head?_lit_append "    \x7bvvl::Extension::" ' ' ("   \x7bvvl::Extension::".data) rfl _

theorem headerDeclFrom_startsWith (c : Command) (tail : String) :
    pyStartsWith (headerDeclFrom c tail) "void PostCallRecord" = true := by
  unfold headerDeclFrom
  dsimp only
  rw [pyReplace_append_left "void PostCallRecord" (pyDrop tail 2) ");"
    ", const RecordObject& record_obj) \x7b\n" ')' [';'] rfl (by decide)]
  rw [pyReplace_append_left "void PostCallRecord"
    (pyReplace (pyDrop tail 2) ");" ", const RecordObject& record_obj) \x7b\n") ") \x7b"
    ") override;\n" ')' [' ', '\x7b'] rfl (by decide)]
  by_cases hex : extraParameterList.contains c.name = true
  · rw [if_pos hex]
    rw [pyReplace_append_left "void PostCallRecord" _ ")" ", void* state_data)" ')' [] rfl
      (by decide)]
    exact pyStartsWith_append_self _ _
  · rw [if_neg hex]
    exact pyStartsWith_append_self _ _

theorem headerDeclOf_startsWith (c : Command) :
    pyStartsWith (headerDeclOf c) "void PostCallRecord" = true :=
  headerDeclFrom_startsWith c _

theorem sourceSigOf_startsWith (c : Command) :
    pyStartsWith (sourceSigOf c) "void BestPractices::PostCallRecord" = true := by
  unfold sourceSigOf
  dsimp only
  rw [pyReplace_append_left "void BestPractices::PostCallRecord"
    (pyDrop ((vkapiTail c).getD "") 2) ");" ", const RecordObject& record_obj) \x7b\n" ')'
    [';'] rfl (by decide)]
  by_cases hex : extraParameterList.contains c.name = true
  · rw [if_pos hex]
    rw [pyReplace_append_left "void BestPractices::PostCallRecord" _ ")" ", void* state_data)"
      ')' [] rfl (by decide)]
    exact pyStartsWith_append_self _ _
  · rw [if_neg hex]
    exact pyStartsWith_append_self _ _

/-! ### Toolkit: declarations and definitions recovered from the emitted fragments -/

theorem headerLoop_filter :
    ∀ (cmds : List Command) (st : Option String) (out : List String),
      headerLoop st cmds = some out →
      out.filter (fun s => pyStartsWith s "void PostCallRecord") = cmds.map headerDeclOf := by
  intro cmds
  induction cmds with
  | nil =>
    intro st out h
    have hout : out = addGuardText false st none := (Option.some.inj h).symm
    subst hout
    rw [List.map_nil]
    apply List.filter_eq_nil_iff.mpr
    intro a ha
    rcases addGuardText_head false st none a ha with h1 | h1 <;>
      simp [pyStartsWith_false_of_head a "void PostCallRecord" _ 'v' h1 rfl (by decide)]
  | cons c rest ih =>
    intro st out h
    unfold headerLoop at h
    rcases hvt : vkapiTail c with _ | t
    · rw [hvt] at h
      cases h
    · rw [hvt] at h
      rcases Option.map_eq_some'.mp h with ⟨out', hrec, hout⟩
      subst hout
      rw [List.filter_append, List.filter_append]
      have hg : (addGuardText false st c.protect).filter
          (fun s => pyStartsWith s "void PostCallRecord") = [] := by
        apply List.filter_eq_nil_iff.mpr
        intro a ha
        rcases addGuardText_head false st c.protect a ha with h1 | h1 <;>
          simp [pyStartsWith_false_of_head a "void PostCallRecord" _ 'v' h1 rfl (by decide)]
      have hd : ([headerDeclOf c]).filter (fun s => pyStartsWith s "void PostCallRecord") =
          [headerDeclOf c] := by
        simp [List.filter, headerDeclOf_startsWith c]
      rw [hg, hd, ih c.protect out' hrec]
      simp

theorem sourceLoop_filter :
    ∀ (cmds : List Command) (st : Option String) (out : List String),
      sourceLoop st cmds = some out →
      out.filter (fun s => pyStartsWith s "void BestPractices::PostCallRecord") =
        cmds.map sourceSigOf := by
  intro cmds
  induction cmds with
  | nil =>
    intro st out h
    have hout : out = addGuardText true st none := (Option.some.inj h).symm
    subst hout
    rw [List.map_nil]
    apply List.filter_eq_nil_iff.mpr
    intro a ha
    rcases addGuardText_head true st none a ha with h1 | h1 <;>
      simp [pyStartsWith_false_of_head a "void BestPractices::PostCallRecord" _ 'v' h1 rfl
        (by decide)]
  | cons c rest ih =>
    intro st out h
    unfold sourceLoop at h
    rcases hvt : vkapiTail c with _ | t
    · rw [hvt] at h
      cases h
    · rw [hvt] at h
      rcases Option.map_eq_some'.mp h with ⟨out', hrec, hout⟩
      subst hout
      rw [List.filter_append, List.filter_append, List.filter_append, List.filter_append]
      have hg : (addGuardText true st c.protect).filter
          (fun s => pyStartsWith s "void BestPractices::PostCallRecord") = [] := by
        apply List.filter_eq_nil_iff.mpr
        intro a ha
        rcases addGuardText_head true st c.protect a ha with h1 | h1 <;>
          simp [pyStartsWith_false_of_head a "void BestPractices::PostCallRecord" _ 'v' h1 rfl
            (by decide)]
      have hsg : ([sourceSigOf c]).filter
          (fun s => pyStartsWith s "void BestPractices::PostCallRecord") = [sourceSigOf c] := by
        simp [List.filter, sourceSigOf_startsWith c]
      have hb : (commandBody c).filter
          (fun s => pyStartsWith s "void BestPractices::PostCallRecord") = [] := by
        apply List.filter_eq_nil_iff.mpr
        intro a ha
        rcases commandBody_head c a ha with h1 | h1 | h1 | h1 <;>
          simp [pyStartsWith_false_of_head a "void BestPractices::PostCallRecord" _ 'v' h1 rfl
            (by decide)]
      have hcl : (["\x7d\n"] : List String).filter
          (fun s => pyStartsWith s "void BestPractices::PostCallRecord") = [] := by decide
      rw [hg, hsg, hb, hcl, ih c.protect out' hrec]
      simp

theorem generateSourceOut_filter (reg : Registry) (out : List String)
    (h : generateSourceOut reg = some out) :
    out.filter (fun s => pyStartsWith s "void BestPractices::PostCallRecord") =
      (eligibleCommands reg).map sourceSigOf := by
  unfold generateSourceOut at h
  rcases Option.map_eq_some'.mp h with ⟨cmds, hrec, hout⟩
  subst hout
  rw [List.filter_append, List.filter_append, List.filter_append, List.filter_append,
    List.filter_append]
  have h1 : ([sourcePre] : List String).filter
      (fun s => pyStartsWith s "void BestPractices::PostCallRecord") = [] := by
    simp [List.filter,
      pyStartsWith_false_of_head sourcePre "void BestPractices::PostCallRecord" '\n' 'v' rfl rfl
        (by decide)]
  have h2 : (reg.extensions.filterMap deprecationRow).filter
      (fun s => pyStartsWith s "void BestPractices::PostCallRecord") = [] := by
    apply List.filter_eq_nil_iff.mpr
    intro a ha
    rcases List.mem_filterMap.mp ha with ⟨e, _, he⟩
    simp [pyStartsWith_false_of_head a "void BestPractices::PostCallRecord" ' ' 'v'
      (deprecationRow_head e a he) rfl (by decide)]
  have h3 : ([sourceMid] : List String).filter
      (fun s => pyStartsWith s "void BestPractices::PostCallRecord") = [] := by
    simp [List.filter,
      pyStartsWith_false_of_head sourceMid "void BestPractices::PostCallRecord" ' ' 'v' rfl rfl
        (by decide)]
  have h4 : (reg.extensions.filterMap specialUseRow).filter
      (fun s => pyStartsWith s "void BestPractices::PostCallRecord") = [] := by
    apply List.filter_eq_nil_iff.mpr
    intro a ha
    rcases List.mem_filterMap.mp ha with ⟨e, _, he⟩
    simp [pyStartsWith_false_of_head a "void BestPractices::PostCallRecord" ' ' 'v'
      (specialUseRow_head e a he) rfl (by decide)]
  have h5 : ([sourceMid2] : List String).filter
      (fun s => pyStartsWith s "void BestPractices::PostCallRecord") = [] := by
    simp [List.filter,
      pyStartsWith_false_of_head sourceMid2 "void BestPractices::PostCallRecord" ' ' 'v' rfl rfl
        (by decide)]
  rw [h1, h2, h3, h4, h5, sourceLoop_filter (eligibleCommands reg) none cmds hrec]
  simp

/-! ### Toolkit: membership in the accumulated exclusion list -/

theorem noAutogen_step_mem (init : List String) (c : Command) (x : String) :
    (x ∈ (let acc := if c.returnType ≠ "VkResult" then init ++ [c.name] else init
          if c.errorCodes = none ∧ hasNonVkSuccess c.successCodes = false then acc ++ [c.name]
          else acc)) ↔
      x ∈ init ∨ (x = c.name ∧
        (c.returnType ≠ "VkResult" ∨ (c.errorCodes = none ∧ hasNonVkSuccess c.successCodes = false))) := by
  by_cases h1 : c.returnType ≠ "VkResult" <;>
    by_cases h2 : c.errorCodes = none ∧ hasNonVkSuccess c.successCodes = false <;>
      simp [h1, h2, List.mem_append]

theorem mem_noAutogen_foldl (l : List Command) :
    ∀ (init : List String) (x : String),
      (x ∈ l.foldl
        (fun acc c =>
          let acc := if c.returnType ≠ "VkResult" then acc ++ [c.name] else acc
          if c.errorCodes = none ∧ hasNonVkSuccess c.successCodes = false then acc ++ [c.name]
          else acc)
        init) ↔
      x ∈ init ∨ ∃ c, c ∈ l ∧ c.name = x ∧
        (c.returnType ≠ "VkResult" ∨ (c.errorCodes = none ∧ hasNonVkSuccess c.successCodes = false)) := by
  induction l with
  | nil => intro init x; simp
  | cons c rest ih =>
    intro init x
    rw [List.foldl_cons, ih]
    rw [noAutogen_step_mem init c x]
    constructor
    · rintro ((h | ⟨rfl, hcond⟩) | ⟨c', hc', rfl, hcond⟩)
      · exact Or.inl h
      · exact Or.inr ⟨c, List.mem_cons_self c rest, rfl, hcond⟩
      · exact Or.inr ⟨c', List.mem_cons_of_mem c hc', rfl, hcond⟩
    · rintro (h | ⟨c', hc', rfl, hcond⟩)
      · exact Or.inl (Or.inl h)
      · rcases List.mem_cons.mp hc' with rfl | hmem
        · exact Or.inl (Or.inr ⟨rfl, hcond⟩)
        · exact Or.inr ⟨c', hmem, rfl, hcond⟩

theorem mem_noAutogenList (reg : Registry) (x : String) :
    x ∈ noAutogenList reg ↔
      x ∈ noAutogenInitList ∨ ∃ c, c ∈ reg.commands ∧ c.name = x ∧
        (c.returnType ≠ "VkResult" ∨ (c.errorCodes = none ∧ hasNonVkSuccess c.successCodes = false)) := by
  unfold noAutogenList
  exact mem_noAutogen_foldl reg.commands noAutogenInitList x

theorem excludedB_characterization (reg : Registry)
    (hnd : (reg.commands.map Command.name).Nodup) (c : Command) (hc : c ∈ reg.commands) :
    excludedB reg c = true ↔
      (c.name ∈ noAutogenInitList ∨ c.returnType ≠ "VkResult" ∨
        (c.errorCodes = none ∧ hasNonVkSuccess c.successCodes = false)) := by
  unfold excludedB
  rw [contains_eq_true_iff, mem_noAutogenList]
  constructor
  · rintro (h | ⟨c', hc', hname, hcond⟩)
    · exact Or.inl h
    · have : c' = c := List.inj_on_of_nodup_map hnd hc' hc hname
      subst this
      exact Or.inr hcond
  · rintro (h | hcond)
    · exact Or.inl h
    · exact Or.inr ⟨c, hc, rfl, hcond⟩

theorem mem_eligible_iff (reg : Registry) (c : Command) :
    c ∈ eligibleCommands reg ↔ c ∈ reg.commands ∧ excludedB reg c = false := by
  unfold eligibleCommands excludedB
  rw [List.mem_filter]
  simp


/-! ### Concrete sample registry entities (used to instantiate the theorems) -/

/-- `vkEnumerateInstanceVersion`: in the fixed manual exclusion list. -/
def cmdEnumIV : Command :=
  { name := "vkEnumerateInstanceVersion", returnType := "VkResult", params := ["pApiVersion"],
    successCodes := some ["VK_SUCCESS"], errorCodes := some ["VK_ERROR_OUT_OF_HOST_MEMORY"],
    alias' := none, protect := none,
    cPrototype := "VKAPI_ATTR VkResult VKAPI_CALL vkEnumerateInstanceVersion(uint32_t* pApiVersion);" }

/-- `vkCmdDraw`: excluded because its return type is not `VkResult`. -/
def cmdVoid : Command :=
  { name := "vkCmdDraw", returnType := "void",
    params := ["commandBuffer", "vertexCount", "instanceCount", "firstVertex", "firstInstance"],
    successCodes := none, errorCodes := none, alias' := none, protect := none,
    cPrototype := "VKAPI_ATTR void VKAPI_CALL vkCmdDraw(VkCommandBuffer commandBuffer, uint32_t vertexCount, uint32_t instanceCount, uint32_t firstVertex, uint32_t firstInstance);" }

/-- A `VkResult` command with no error codes and only the default success
code: excluded by the second pass. -/
def cmdNoCodes : Command :=
  { name := "vkReleaseDisplayEXT", returnType := "VkResult", params := ["physicalDevice", "display"],
    successCodes := some ["VK_SUCCESS"], errorCodes := none, alias' := none, protect := none,
    cPrototype := "VKAPI_ATTR VkResult VKAPI_CALL vkReleaseDisplayEXT(VkPhysicalDevice physicalDevice, VkDisplayKHR display);" }

/-- `vkCreateShaderModule`: eligible, in the extra-parameter list. -/
def cmdSM : Command :=
  { name := "vkCreateShaderModule", returnType := "VkResult",
    params := ["device", "pCreateInfo", "pAllocator", "pShaderModule"],
    successCodes := some ["VK_SUCCESS"], errorCodes := some ["VK_ERROR_OUT_OF_HOST_MEMORY"],
    alias' := none, protect := none,
    cPrototype := "VKAPI_ATTR VkResult VKAPI_CALL vkCreateShaderModule(VkDevice device, const VkShaderModuleCreateInfo* pCreateInfo, const VkAllocationCallbacks* pAllocator, VkShaderModule* pShaderModule);" }

/-- `vkEnumeratePhysicalDevices`: eligible, success codes
`{VK_SUCCESS, VK_INCOMPLETE}` and an error code. -/
def cmdEnumPD : Command :=
  { name := "vkEnumeratePhysicalDevices", returnType := "VkResult",
    params := ["instance", "pPhysicalDeviceCount", "pPhysicalDevices"],
    successCodes := some ["VK_SUCCESS", "VK_INCOMPLETE"],
    errorCodes := some ["VK_ERROR_OUT_OF_HOST_MEMORY", "VK_ERROR_INITIALIZATION_FAILED"],
    alias' := none, protect := none,
    cPrototype := "VKAPI_ATTR VkResult VKAPI_CALL vkEnumeratePhysicalDevices(VkInstance instance, uint32_t* pPhysicalDeviceCount, VkPhysicalDevice* pPhysicalDevices);" }

/-- `vkBindBufferMemory2KHR`: an eligible alias command. -/
def cmdAliasBBM : Command :=
  { name := "vkBindBufferMemory2KHR", returnType := "VkResult",
    params := ["device", "bindInfoCount", "pBindInfos"],
    successCodes := some ["VK_SUCCESS"], errorCodes := some ["VK_ERROR_OUT_OF_HOST_MEMORY"],
    alias' := some "vkBindBufferMemory2", protect := none,
    cPrototype := "VKAPI_ATTR VkResult VKAPI_CALL vkBindBufferMemory2KHR(VkDevice device, uint32_t bindInfoCount, const VkBindBufferMemoryInfo* pBindInfos);" }

/-- `vkCreateGraphicsPipelines`: eligible, in both the extra-parameter and
manual post-call-record lists. -/
def cmdCGP : Command :=
  { name := "vkCreateGraphicsPipelines", returnType := "VkResult",
    params := ["device", "pipelineCache", "createInfoCount", "pCreateInfos", "pAllocator", "pPipelines"],
    successCodes := some ["VK_SUCCESS", "VK_PIPELINE_COMPILE_REQUIRED_EXT"],
    errorCodes := some ["VK_ERROR_OUT_OF_HOST_MEMORY", "VK_ERROR_OUT_OF_DEVICE_MEMORY"],
    alias' := none, protect := none,
    cPrototype := "VKAPI_ATTR VkResult VKAPI_CALL vkCreateGraphicsPipelines(VkDevice device, VkPipelineCache pipelineCache, uint32_t createInfoCount, const VkGraphicsPipelineCreateInfo* pCreateInfos, const VkAllocationCallbacks* pAllocator, VkPipeline* pPipelines);" }

/-- Extension with both a promotion and an obsoletion target set. -/
def extBoth : Extension :=
  { name := "VK_KHR_sampler_mirror_clamp_to_edge", promotedTo := some "VK_VERSION_1_2",
    obsoletedBy := some "VK_KHR_maintenance1", deprecatedBy := none, specialUse := none }

/-- Extension deprecated with an empty target string. -/
def extDeprEmpty : Extension :=
  { name := "VK_EXT_validation_flags", promotedTo := none, obsoletedBy := none,
    deprecatedBy := some "", specialUse := none }

/-- Extension with special-use tags `["cad", "debugging"]`. -/
def extSpecial : Extension :=
  { name := "VK_EXT_tooling_info", promotedTo := none, obsoletedBy := none,
    deprecatedBy := none, specialUse := some ["cad", "debugging"] }

/-- Extension whose special-use list is present but empty. -/
def extEmptyTags : Extension :=
  { name := "VK_EXT_empty_tags", promotedTo := none, obsoletedBy := none,
    deprecatedBy := none, specialUse := some [] }

/-- Extension with no lifecycle metadata at all. -/
def extPlain : Extension :=
  { name := "VK_KHR_surface", promotedTo := none, obsoletedBy := none,
    deprecatedBy := none, specialUse := none }

/-- A small sample registry exercising every eligibility rule. -/
def regW : Registry :=
  { commands := [cmdEnumIV, cmdVoid, cmdNoCodes, cmdSM, cmdEnumPD, cmdAliasBBM, cmdCGP],
    extensions := [extBoth, extDeprEmpty, extSpecial, extEmptyTags, extPlain] }

/-! ### Claims -/

/-- C1: for every Command not in the exclusion set, the header artifact
contains exactly one declaration and the source artifact exactly one
definition, in registry iteration order (the eligible commands form an
order-preserving sublist, each contributing exactly one declaration /
definition signature); excluded Commands are never iterated, so neither
artifact contains a declaration or definition for them. -/
theorem c1_exactly_one_decl_and_def (reg : Registry)
    (hnd : (reg.commands.map Command.name).Nodup) :
    (eligibleCommands reg).Sublist reg.commands ∧
    (∀ c ∈ reg.commands, excludedB reg c = false → (eligibleCommands reg).count c = 1) ∧
    (∀ c ∈ reg.commands, excludedB reg c = true → c ∉ eligibleCommands reg) ∧
    (∀ outH, generateHeaderOut reg = some outH →
      outH.filter (fun s => pyStartsWith s "void PostCallRecord") =
        (eligibleCommands reg).map headerDeclOf) ∧
    (∀ outS, generateSourceOut reg = some outS →
      outS.filter (fun s => pyStartsWith s "void BestPractices::PostCallRecord") =
        (eligibleCommands reg).map sourceSigOf) := by
  refine ⟨List.filter_sublist reg.commands, ?_, ?_, ?_, ?_⟩
  · intro c hc hex
    have hcnt : reg.commands.count c = 1 :=
      List.count_eq_one_of_mem (hnd.of_map) hc
    have hmem : c ∈ eligibleCommands reg := (mem_eligible_iff reg c).mpr ⟨hc, hex⟩
    have h1 : 0 < (eligibleCommands reg).count c := List.count_pos_iff.mpr hmem
    have h2 : (eligibleCommands reg).count c ≤ reg.commands.count c :=
      (List.filter_sublist reg.commands).count_le c
    omega
  · intro c hc hex hmem
    rcases (mem_eligible_iff reg c).mp hmem with ⟨_, hfalse⟩
    rw [hex] at hfalse
    cases hfalse
  · intro outH h
    exact headerLoop_filter (eligibleCommands reg) none outH h
  · intro outS h
    exact generateSourceOut_filter reg outS h

/-- C1 witness: on the sample registry, the eligible `vkCreateShaderModule`
is counted exactly once and the excluded `vkCmdDraw` never appears. -/
theorem c1_witness :
    (eligibleCommands regW).count cmdSM = 1 ∧ cmdVoid ∉ eligibleCommands regW := by
  have h := c1_exactly_one_decl_and_def regW (by decide)
  exact ⟨h.2.1 cmdSM (by decide) (by decide), h.2.2.1 cmdVoid (by decide) (by decide)⟩

/-- C2: a Command is excluded iff its name is one of the five fixed
exception names, or its return type is not `VkResult`, or it declares no
error codes and `hasNonVkSuccess` of its success codes is false; and
`hasNonVkSuccess` is false exactly on an absent collection, an empty
collection, or the singleton `[VK_SUCCESS]`. -/
theorem c2_exclusion_characterization (reg : Registry)
    (hnd : (reg.commands.map Command.name).Nodup) (c : Command) (hc : c ∈ reg.commands) :
    (excludedB reg c = true ↔
      (c.name ∈ noAutogenInitList ∨ c.returnType ≠ "VkResult" ∨
        (c.errorCodes = none ∧ hasNonVkSuccess c.successCodes = false))) ∧
    (∀ sc : Option (List String),
      hasNonVkSuccess sc = false ↔ (sc = none ∨ sc = some [] ∨ sc = some ["VK_SUCCESS"])) := by
  refine ⟨excludedB_characterization reg hnd c hc, ?_⟩
  intro sc
  match sc with
  | none => simp [hasNonVkSuccess]
  | some [] => simp [hasNonVkSuccess]
  | some [a] =>
    simp [hasNonVkSuccess, List.contains]
    exact eq_comm
  | some (a :: b :: t) =>
    have hT : hasNonVkSuccess (some (a :: b :: t)) = true := by
      simp [hasNonVkSuccess]
    rw [hT]
    simp

/-- C2 witness: on the sample registry, `vkCmdDraw` (non-`VkResult` return)
is excluded, and the singleton success set `[VK_SUCCESS]` is not a
meaningful success set. -/
theorem c2_witness :
    excludedB regW cmdVoid = true ∧ hasNonVkSuccess (some ["VK_SUCCESS"]) = false := by
  have h := c2_exclusion_characterization regW (by decide) cmdVoid (by decide)
  exact ⟨h.1.mpr (Or.inr (Or.inl (by decide))), (h.2 (some ["VK_SUCCESS"])).mpr
    (Or.inr (Or.inr rfl))⟩

/-- C3: for every eligible Command with an alias set, the emitted
definition body is exactly one forwarding call to the aliased Command's
generated name, passing the Command's own parameter names plus
`record_obj`; no base tracking call, no manual hook call, and no
success/error logging branch is emitted for it. -/
theorem c3_alias_forwarding (c : Command) (a : String)
    (ha : c.alias' = some a) (hne : a ≠ "") :
    commandBody c =
      ["PostCallRecord" ++ (pyDrop a 2 ++ ("(" ++
        (pyJoin ", " (c.params ++ ["record_obj"]) ++ ");")))] ∧
    successBranchText ∉ commandBody c ∧ errorBranchText ∉ commandBody c ∧
    (∀ s ∈ commandBody c, pyStartsWith s "ValidationStateTracker::" = false ∧
      pyStartsWith s "ManualPostCallRecord" = false) := by
  have hat : aliasTruthy c.alias' = true := by
    rw [ha]
    simp [aliasTruthy, hne]
  have hbody : commandBody c =
      ["PostCallRecord" ++ (pyDrop a 2 ++ ("(" ++
        (pyJoin ", " (c.params ++ ["record_obj"]) ++ ");")))] := by
    unfold commandBody
    rw [if_pos hat, ha]
    rfl
  have hh : ("PostCallRecord" ++ (pyDrop a 2 ++ ("(" ++
      (pyJoin ", " (c.params ++ ["record_obj"]) ++ ");")))).data.head? = some 'P' :=
    head?_lit_append "PostCallRecord" 'P' ("ostCallRecord".data) rfl _
  refine ⟨hbody, ?_, ?_, ?_⟩
  · rw [hbody]
    intro hmem
    exact (ne_of_data_head (show successBranchText.data.head? = some '\n' from rfl) hh
      (by decide)) (List.mem_singleton.mp hmem)
  · rw [hbody]
    intro hmem
    exact (ne_of_data_head (show errorBranchText.data.head? = some '\n' from rfl) hh
      (by decide)) (List.mem_singleton.mp hmem)
  · intro s hs
    rw [hbody] at hs
    rw [List.mem_singleton.mp hs]
    exact ⟨pyStartsWith_false_of_head _ "ValidationStateTracker::" 'P' 'V' hh rfl (by decide),
      pyStartsWith_false_of_head _ "ManualPostCallRecord" 'P' 'M' hh rfl (by decide)⟩

/-- C3 witness: the alias `vkBindBufferMemory2KHR` emits exactly the one
forwarding call. -/
theorem c3_witness :
    commandBody cmdAliasBBM =
      ["PostCallRecordBindBufferMemory2(device, bindInfoCount, pBindInfos, record_obj);"] := by
  have h := c3_alias_forwarding cmdAliasBBM "vkBindBufferMemory2" rfl (by decide)
  rw [h.1]
  decide

/-- C4: for every eligible non-alias Command, the positive-success branch
appears in the body iff `hasNonVkSuccess` of its success codes is true,
the error branch appears iff it declares error codes, the success branch
(which alone contains the early `return;`) precedes the error branch, and
the scenario success set `{VK_SUCCESS, INCOMPLETE}` is meaningful. -/
theorem c4_result_branches (c : Command) (hal : aliasTruthy c.alias' = false) :
    (successBranchText ∈ commandBody c ↔ hasNonVkSuccess c.successCodes = true) ∧
    (errorBranchText ∈ commandBody c ↔ c.errorCodes.isSome = true) ∧
    (hasNonVkSuccess c.successCodes = true → c.errorCodes.isSome = true →
      ∃ pre, commandBody c = pre ++ [successBranchText, errorBranchText]) ∧
    pyContains successBranchText "return;" = true ∧
    pyContains errorBranchText "return;" = false ∧
    hasNonVkSuccess (some ["VK_SUCCESS", "INCOMPLETE"]) = true := by
  have hbase : ("ValidationStateTracker::PostCallRecord" ++ (pyDrop c.name 2 ++ ("(" ++
      (paramsStr c ++ ");\n")))).data.head? = some 'V' :=
    head?_lit_append "ValidationStateTracker::PostCallRecord" 'V'
      ("alidationStateTracker::PostCallRecord".data) rfl _
  have hman : ("ManualPostCallRecord" ++ (pyDrop c.name 2 ++ ("(" ++
      (paramsStr c ++ ");\n")))).data.head? = some 'M' :=
    head?_lit_append "ManualPostCallRecord" 'M' ("anualPostCallRecord".data) rfl _
  have hs_base : successBranchText ≠ "ValidationStateTracker::PostCallRecord" ++
      (pyDrop c.name 2 ++ ("(" ++ (paramsStr c ++ ");\n"))) :=
    ne_of_data_head (show successBranchText.data.head? = some '\n' from rfl) hbase (by decide)
  have hs_man : successBranchText ≠ "ManualPostCallRecord" ++
      (pyDrop c.name 2 ++ ("(" ++ (paramsStr c ++ ");\n"))) :=
    ne_of_data_head (show successBranchText.data.head? = some '\n' from rfl) hman (by decide)
  have he_base : errorBranchText ≠ "ValidationStateTracker::PostCallRecord" ++
      (pyDrop c.name 2 ++ ("(" ++ (paramsStr c ++ ");\n"))) :=
    ne_of_data_head (show errorBranchText.data.head? = some '\n' from rfl) hbase (by decide)
  have he_man : errorBranchText ≠ "ManualPostCallRecord" ++
      (pyDrop c.name 2 ++ ("(" ++ (paramsStr c ++ ");\n"))) :=
    ne_of_data_head (show errorBranchText.data.head? = some '\n' from rfl) hman (by decide)
  have hs_ne_e : successBranchText ≠ errorBranchText := by decide
  have he_ne_s : errorBranchText ≠ successBranchText := by decide
  unfold commandBody
  rw [if_neg (by simp [hal])]
  refine ⟨?_, ?_, ?_, by decide, by decide, by decide⟩
  · by_cases hm : manualPostcallrecordList.contains c.name = true <;>
      by_cases hsc : hasNonVkSuccess c.successCodes = true <;>
        by_cases he : c.errorCodes.isSome = true <;>
          simp [hm, hsc, he, List.mem_append, hs_base, hs_man, hs_ne_e]
  · by_cases hm : manualPostcallrecordList.contains c.name = true <;>
      by_cases hsc : hasNonVkSuccess c.successCodes = true <;>
        by_cases he : c.errorCodes.isSome = true <;>
          simp [hm, hsc, he, List.mem_append, he_base, he_man, he_ne_s]
  · intro hsc he
    rw [hsc, he]
    by_cases hm : manualPostcallrecordList.contains c.name = true
    · rw [if_pos hm]
      exact ⟨["ValidationStateTracker::PostCallRecord" ++ (pyDrop c.name 2 ++ ("(" ++
        (paramsStr c ++ ");\n"))), "ManualPostCallRecord" ++ (pyDrop c.name 2 ++ ("(" ++
        (paramsStr c ++ ");\n")))], by simp⟩
    · rw [if_neg hm]
      exact ⟨["ValidationStateTracker::PostCallRecord" ++ (pyDrop c.name 2 ++ ("(" ++
        (paramsStr c ++ ");\n")))], by simp⟩

/-- C4 witness: `vkEnumeratePhysicalDevices` (success codes
`{VK_SUCCESS, VK_INCOMPLETE}`, two error codes) gets both branches. -/
theorem c4_witness :
    successBranchText ∈ commandBody cmdEnumPD ∧ errorBranchText ∈ commandBody cmdEnumPD := by
  have h := c4_result_branches cmdEnumPD (by decide)
  exact ⟨h.1.mpr (by decide), h.2.1.mpr (by decide)⟩

/-- C10 (implicit): for eligible non-alias Commands in the
extra-parameter list, the base tracking call — and, when the Command is
also in the manual post-call list, the manual hook call — forwards
`state_data` as the final argument after `record_obj`; alias forwarding
calls pass only the parameters plus `record_obj`. -/
theorem c10_state_data_forwarding (c : Command) :
    (aliasTruthy c.alias' = false → extraParameterList.contains c.name = true →
      paramsStr c = pyJoin ", " (c.params ++ ["record_obj", "state_data"]) ∧
      (commandBody c).head? = some ("ValidationStateTracker::PostCallRecord" ++
        (pyDrop c.name 2 ++ ("(" ++ (paramsStr c ++ ");\n")))) ∧
      (manualPostcallrecordList.contains c.name = true →
        (commandBody c).get? 1 = some ("ManualPostCallRecord" ++
          (pyDrop c.name 2 ++ ("(" ++ (paramsStr c ++ ");\n")))))) ∧
    (∀ a, c.alias' = some a → a ≠ "" →
      commandBody c = ["PostCallRecord" ++ (pyDrop a 2 ++ ("(" ++
        (pyJoin ", " (c.params ++ ["record_obj"]) ++ ");")))]) := by
  constructor
  · intro hal hex
    refine ⟨?_, ?_, ?_⟩
    · unfold paramsStr
      rw [if_pos hex]
      congr 1
      simp
    · unfold commandBody
      rw [if_neg (by simp [hal])]
      rfl
    · intro hm
      unfold commandBody
      rw [if_neg (by simp [hal]), if_pos hm]
      rfl
  · intro a ha hne
    have hat : aliasTruthy c.alias' = true := by
      rw [ha]
      simp [aliasTruthy, hne]
    unfold commandBody
    rw [if_pos hat, ha]
    rfl

/-- C10 witness: `vkCreateGraphicsPipelines` (extra-parameter and manual
lists) forwards `state_data` last in both calls, while the alias
`vkBindBufferMemory2KHR` forwards only its parameters plus `record_obj`. -/
theorem c10_witness :
    paramsStr cmdCGP =
      "device, pipelineCache, createInfoCount, pCreateInfos, pAllocator, pPipelines, record_obj, state_data" ∧
    (commandBody cmdCGP).get? 1 =
      some "ManualPostCallRecordCreateGraphicsPipelines(device, pipelineCache, createInfoCount, pCreateInfos, pAllocator, pPipelines, record_obj, state_data);\n" ∧
    commandBody cmdAliasBBM =
      ["PostCallRecordBindBufferMemory2(device, bindInfoCount, pBindInfos, record_obj);"] := by
  have h1 := (c10_state_data_forwarding cmdCGP).1 (by decide) (by decide)
  have h2 := (c10_state_data_forwarding cmdAliasBBM).2 "vkBindBufferMemory2" rfl (by decide)
  refine ⟨?_, ?_, ?_⟩
  · rw [h1.1]
    decide
  · rw [h1.2.2 (by decide)]
    decide
  · rw [h2]
    decide

/-- C5: an Extension gets a deprecation-table row iff at least one of
promoted-to / obsoleted-by / deprecated-by is set; the reason is chosen
with fixed priority promoted over obsoleted over deprecated (a set
promoted-to wins regardless of the other fields), and the target renders
as the empty sentinel, a version identifier, or an extension identifier
according to the target string. -/
theorem c5_deprecation_priority (e : Extension) :
    (deprecationRow e = none ↔
      (e.promotedTo = none ∧ e.obsoletedBy = none ∧ e.deprecatedBy = none)) ∧
    (∀ t, e.promotedTo = some t →
      deprecationRow e = some ("    \x7bvvl::Extension::" ++ (pyDrop e.name 3 ++ (", \x7b" ++
        ("DeprecationReason::Promoted" ++ (", \x7b" ++
          (deprecationTarget t ++ "\x7d\x7d\x7d,\n"))))))) ∧
    (∀ t, e.promotedTo = none → e.obsoletedBy = some t →
      deprecationRow e = some ("    \x7bvvl::Extension::" ++ (pyDrop e.name 3 ++ (", \x7b" ++
        ("DeprecationReason::Obsoleted" ++ (", \x7b" ++
          (deprecationTarget t ++ "\x7d\x7d\x7d,\n"))))))) ∧
    (∀ t, e.promotedTo = none → e.obsoletedBy = none → e.deprecatedBy = some t →
      deprecationRow e = some ("    \x7bvvl::Extension::" ++ (pyDrop e.name 3 ++ (", \x7b" ++
        ("DeprecationReason::Deprecated" ++ (", \x7b" ++
          (deprecationTarget t ++ "\x7d\x7d\x7d,\n"))))))) ∧
    deprecationTarget "" = "vvl::Extension::Empty" ∧
    (∀ t : String, t ≠ "" → pyContains t "VERSION" = true →
      deprecationTarget t = "vvl::Version::_" ++ t) ∧
    (∀ t : String, t ≠ "" → pyContains t "VERSION" = false →
      deprecationTarget t = "vvl::Extension::" ++ pyDrop t 3) := by
  refine ⟨?_, ?_, ?_, ?_, by decide, ?_, ?_⟩
  · rcases hp : e.promotedTo with _ | t1 <;> rcases ho : e.obsoletedBy with _ | t2 <;>
      rcases hd : e.deprecatedBy with _ | t3 <;> simp [deprecationRow, hp, ho, hd]
  · intro t ht
    unfold deprecationRow
    rw [ht]
    rfl
  · intro t hp ho
    unfold deprecationRow
    rw [hp, ho]
    rfl
  · intro t hp ho hd
    unfold deprecationRow
    rw [hp, ho, hd]
    rfl
  · intro t ht hv
    have hlen : (t.length == 0) = false := by
      cases t with
      | mk l =>
        cases l with
        | nil => exact absurd rfl ht
        | cons c cs => simp [String.length]
    unfold deprecationTarget
    rw [hlen, hv]
    rfl
  · intro t ht hv
    have hlen : (t.length == 0) = false := by
      cases t with
      | mk l =>
        cases l with
        | nil => exact absurd rfl ht
        | cons c cs => simp [String.length]
    unfold deprecationTarget
    rw [hlen, hv]
    rfl

/-- C5 witness: an Extension with both promoted-to and obsoleted-by set
reports the promoted reason with a version target, and an Extension with
no lifecycle field set gets no row. -/
theorem c5_witness :
    deprecationRow extBoth =
      some "    \x7bvvl::Extension::KHR_sampler_mirror_clamp_to_edge, \x7bDeprecationReason::Promoted, \x7bvvl::Version::_VK_VERSION_1_2\x7d\x7d\x7d,\n" ∧
    deprecationRow extPlain = none := by
  constructor
  · rw [(c5_deprecation_priority extBoth).2.1 "VK_VERSION_1_2" rfl]
    decide
  · exact (c5_deprecation_priority extPlain).1.mpr ⟨rfl, rfl, rfl⟩

/-- C6 counterexample: an Extension whose special-use list is present but
empty still gets a table row (with the empty joined value), so "a row iff
the tag list is non-empty" fails on the code, whose test is only
presence (`is not None`). -/
theorem c6_counterexample :
    extEmptyTags.specialUse = some ([] : List String) ∧
    specialUseRow extEmptyTags = some "    \x7bvvl::Extension::EXT_empty_tags, \"\"\x7d,\n" :=
  ⟨rfl, by decide⟩

/-- C6 (amended): the special-use table contains a row for an Extension
iff its special-use list is present (absent means no row; a present but
empty list yields a row with empty value), and the row's value is the
tags joined with a comma-and-space separator, so tags
`["cad", "debugging"]` render as `"cad, debugging"`. -/
theorem c6_special_use_rows (e : Extension) :
    (specialUseRow e = none ↔ e.specialUse = none) ∧
    (∀ tags, e.specialUse = some tags →
      specialUseRow e = some ("    \x7bvvl::Extension::" ++ (pyDrop e.name 3 ++ (", \"" ++
        (pyJoin ", " tags ++ "\"\x7d,\n"))))) ∧
    pyJoin ", " ["cad", "debugging"] = "cad, debugging" := by
  refine ⟨?_, ?_, by decide⟩
  · rcases hsu : e.specialUse with _ | tags <;> simp [specialUseRow, hsu]
  · intro tags hsu
    unfold specialUseRow
    rw [hsu]

/-- C6 witness: the Extension with tags `["cad", "debugging"]` gets the
row value `"cad, debugging"`. -/
theorem c6_witness :
    specialUseRow extSpecial =
      some "    \x7bvvl::Extension::EXT_tooling_info, \"cad, debugging\"\x7d,\n" := by
  rw [(c6_special_use_rows extSpecial).2.1 ["cad", "debugging"] rfl]
  decide

/-- C7: the generator is a pure function of the registry and the
requested artifact name: two runs on equal inputs produce equal output
(the embedding exhibits no other input — no randomness, clock, or
environment reads — so byte-identical output follows). -/
theorem c7_deterministic (reg1 reg2 : Registry) (fn1 fn2 : String)
    (hr : reg1 = reg2) (hf : fn1 = fn2) : generate reg1 fn1 = generate reg2 fn2 := by
  rw [hr, hf]

/-- C7 witness: two runs on the sample registry agree, and the run
actually produces an artifact. -/
theorem c7_witness :
    generate regW "best_practices.h" = generate regW "best_practices.h" ∧
    (generate regW "best_practices.h").isSome = true :=
  ⟨c7_deterministic regW regW "best_practices.h" "best_practices.h" rfl rfl, by decide⟩

/-! ### Abort behaviour (`IndexError` on a marker-less prototype) -/

theorem headerLoop_isSome :
    ∀ (cmds : List Command) (st : Option String),
      (headerLoop st cmds).isSome = cmds.all (fun c => (vkapiTail c).isSome) := by
  intro cmds
  induction cmds with
  | nil => intro st; simp [headerLoop]
  | cons c rest ih =>
    intro st
    unfold headerLoop
    rcases hvt : vkapiTail c with _ | t
    · simp [hvt]
    · simp [hvt, ih c.protect]

theorem sourceLoop_isSome :
    ∀ (cmds : List Command) (st : Option String),
      (sourceLoop st cmds).isSome = cmds.all (fun c => (vkapiTail c).isSome) := by
  intro cmds
  induction cmds with
  | nil => intro st; simp [sourceLoop]
  | cons c rest ih =>
    intro st
    unfold sourceLoop
    rcases hvt : vkapiTail c with _ | t
    · simp [hvt]
    · simp [hvt, ih c.protect]

/-- An otherwise-eligible command whose call-signature text lacks the
`VKAPI_CALL ` marker substring. -/
def cmdNoMarker : Command :=
  { name := "vkBrokenCommand", returnType := "VkResult", params := ["device"],
    successCodes := some ["VK_SUCCESS"], errorCodes := some ["VK_ERROR_DEVICE_LOST"],
    alias' := none, protect := none,
    cPrototype := "VkResult vkBrokenCommand(VkDevice device);" }

/-- Registry containing only the marker-less command. -/
def regNoMarker : Registry := { commands := [cmdNoMarker], extensions := [] }

/-- An eligible command whose alias names a command that exists nowhere
in the registry. -/
def cmdDangling : Command :=
  { name := "vkDanglingAliasKHR", returnType := "VkResult", params := ["device", "info"],
    successCodes := some ["VK_SUCCESS"], errorCodes := some ["VK_ERROR_OUT_OF_HOST_MEMORY"],
    alias' := some "vkNonExistentCommand", protect := none,
    cPrototype := "VKAPI_ATTR VkResult VKAPI_CALL vkDanglingAliasKHR(VkDevice device, const VkInfo* info);" }

/-- Registry containing only the dangling-alias command. -/
def regDangling : Registry := { commands := [cmdDangling], extensions := [] }

/-- C9 counterexample: a Command whose alias names a non-existent Command
does not abort generation — the source artifact is produced and contains
a forwarding call rendered textually from the dangling alias name. -/
theorem c9_counterexample :
    regDangling.commands = [cmdDangling] ∧
    cmdDangling.alias' = some "vkNonExistentCommand" ∧
    (regDangling.commands.map Command.name).contains "vkNonExistentCommand" = false ∧
    (generateSourceOut regDangling).isSome = true ∧
    ((generateSourceOut regDangling).getD []).any
      (fun s => pyStartsWith s "PostCallRecordNonExistentCommand") = true :=
  ⟨rfl, rfl, by decide, by decide, by decide⟩

/-- C9 (amended): generation aborts, producing no artifact, exactly when
some eligible Command's call-signature text lacks the `VKAPI_CALL `
marker (the `split(...)[1]` IndexError); an alias referencing a
non-existent Command is never checked and does not abort. -/
theorem c9_abort_on_missing_marker (reg : Registry) :
    ((generateHeaderOut reg).isSome =
      (eligibleCommands reg).all (fun c => (vkapiTail c).isSome)) ∧
    ((generateSourceOut reg).isSome =
      (eligibleCommands reg).all (fun c => (vkapiTail c).isSome)) ∧
    (∀ c : Command, pyContains c.cPrototype "VKAPI_CALL " = false → vkapiTail c = none) := by
  refine ⟨headerLoop_isSome (eligibleCommands reg) none, ?_,
    fun c h => vkapiTail_none_of_no_marker c h⟩
  unfold generateSourceOut
  rw [← sourceLoop_isSome (eligibleCommands reg) none]
  cases hsl : sourceLoop none (eligibleCommands reg) <;> rfl

/-- C9 witness: the marker-less command makes both artifacts abort. -/
theorem c9_witness :
    vkapiTail cmdNoMarker = none ∧ (generateHeaderOut regNoMarker).isSome = false ∧
    (generateSourceOut regNoMarker).isSome = false := by
  have h := c9_abort_on_missing_marker regNoMarker
  refine ⟨h.2.2 cmdNoMarker (by decide), ?_, ?_⟩
  · rw [h.1]
    decide
  · rw [h.2.1]
    decide

/-! ### Toolkit for the signature computation -/

theorem append_empty_str (s : String) : s ++ "" = s := by
  apply data_inj
  rw [String.data_append]
  simp [show ("" : String).data = [] from rfl]

theorem pyDrop_two_vk (y : String) : pyDrop ("vk" ++ y) 2 = y := by
  apply data_inj
  show (("vk" ++ y).data).drop 2 = y.data
  rw [String.data_append]
  rfl

theorem replace_once (a pat b rep : String) (sh : Char) (pt : List Char)
    (hpat : pat.data = sh :: pt) (ha : sh ∉ a.data) (hb : sh ∉ b.data) :
    pyReplace (a ++ (pat ++ b)) pat rep = a ++ (rep ++ b) := by
  rw [pyReplace_boundary a pat b rep sh pt hpat ha,
    pyReplace_no_head b pat rep sh pt hpat hb]

/-- C8: for every eligible Command in the extra-parameter (manual
interop) list, both the emitted header declaration and the source
definition signature carry exactly one additional trailing `state_data`
parameter, placed after the `record_obj` parameter; Commands not in the
list carry no such parameter.  The prototype tail is assumed well formed:
no `)` inside the function name or the parameter text. -/
theorem c8_extra_trailing_parameter (c : Command) (nm ptext : String)
    (htail : vkapiTail c = some ("vk" ++ (nm ++ ("(" ++ (ptext ++ ");")))))
    (hnm : ')' ∉ nm.data) (hpt : ')' ∉ ptext.data) :
    (extraParameterList.contains c.name = true →
      headerDeclOf c = "void PostCallRecord" ++ (nm ++ ("(" ++ (ptext ++
        ", const RecordObject& record_obj, void* state_data) override;\n\n"))) ∧
      sourceSigOf c = "void BestPractices::PostCallRecord" ++ (nm ++ ("(" ++ (ptext ++
        ", const RecordObject& record_obj, void* state_data) \x7b\n")))) ∧
    (extraParameterList.contains c.name = false →
      headerDeclOf c = "void PostCallRecord" ++ (nm ++ ("(" ++ (ptext ++
        ", const RecordObject& record_obj) override;\n\n"))) ∧
      sourceSigOf c = "void BestPractices::PostCallRecord" ++ (nm ++ ("(" ++ (ptext ++
        ", const RecordObject& record_obj) \x7b\n")))) := by
  have hgetD : (vkapiTail c).getD "" = "vk" ++ (nm ++ ("(" ++ (ptext ++ ");"))) := by
    rw [htail]
    rfl
  have hAh : ')' ∉ ("void PostCallRecord" ++ (nm ++ ("(" ++ ptext))).data := by
    simp [String.data_append, hnm, hpt]
  have hAs : ')' ∉ ("void BestPractices::PostCallRecord" ++ (nm ++ ("(" ++ ptext))).data := by
    simp [String.data_append, hnm, hpt]
  have hA2h : ')' ∉ (("void PostCallRecord" ++ (nm ++ ("(" ++ ptext))) ++
      ", const RecordObject& record_obj").data := by
    simp [String.data_append, hnm, hpt]
  have hA2s : ')' ∉ (("void BestPractices::PostCallRecord" ++ (nm ++ ("(" ++ ptext))) ++
      ", const RecordObject& record_obj").data := by
    simp [String.data_append, hnm, hpt]
  have e0h : "void PostCallRecord" ++ (nm ++ ("(" ++ (ptext ++ ");"))) =
      ("void PostCallRecord" ++ (nm ++ ("(" ++ ptext))) ++ (");" ++ "") := by
    simp [String.append_assoc, append_empty_str]
  have e0s : "void BestPractices::PostCallRecord" ++ (nm ++ ("(" ++ (ptext ++ ");"))) =
      ("void BestPractices::PostCallRecord" ++ (nm ++ ("(" ++ ptext))) ++ (");" ++ "") := by
    simp [String.append_assoc, append_empty_str]
  have hsplitH : (", const RecordObject& record_obj) \x7b\n" : String) =
      ", const RecordObject& record_obj" ++ (") \x7b" ++ "\n") := by decide
  have hsplitS : (", const RecordObject& record_obj) \x7b\n" : String) =
      ", const RecordObject& record_obj" ++ (")" ++ " \x7b\n") := by decide
  -- header: state after the two unconditional replacements
  have hcommonH : pyReplace (pyReplace ("void PostCallRecord" ++
        pyDrop ((vkapiTail c).getD "") 2) ");" ", const RecordObject& record_obj) \x7b\n")
        ") \x7b" ") override;\n" =
      (("void PostCallRecord" ++ (nm ++ ("(" ++ ptext))) ++
        ", const RecordObject& record_obj") ++ (")" ++ " override;\n\n") := by
    rw [hgetD, pyDrop_two_vk, e0h]
    rw [replace_once ("void PostCallRecord" ++ (nm ++ ("(" ++ ptext))) ");" ""
      ", const RecordObject& record_obj) \x7b\n" ')' [';'] rfl hAh (by decide)]
    rw [append_empty_str, hsplitH]
    have massage : ("void PostCallRecord" ++ (nm ++ ("(" ++ ptext))) ++
        (", const RecordObject& record_obj" ++ (") \x7b" ++ "\n")) =
        (("void PostCallRecord" ++ (nm ++ ("(" ++ ptext))) ++
          ", const RecordObject& record_obj") ++ (") \x7b" ++ "\n") := by
      simp [String.append_assoc]
    rw [massage]
    rw [replace_once (("void PostCallRecord" ++ (nm ++ ("(" ++ ptext))) ++
      ", const RecordObject& record_obj") ") \x7b" "\n" ") override;\n" ')' [' ', '\x7b']
      rfl hA2h (by decide)]
    have hsplit2 : (") override;\n" ++ "\n" : String) = ")" ++ " override;\n\n" := by decide
    rw [hsplit2]
  -- source: state after the unconditional replacement
  have hcommonS : pyReplace ("void BestPractices::PostCallRecord" ++
        pyDrop ((vkapiTail c).getD "") 2) ");" ", const RecordObject& record_obj) \x7b\n" =
      (("void BestPractices::PostCallRecord" ++ (nm ++ ("(" ++ ptext))) ++
        ", const RecordObject& record_obj") ++ (")" ++ " \x7b\n") := by
    rw [hgetD, pyDrop_two_vk, e0s]
    rw [replace_once ("void BestPractices::PostCallRecord" ++ (nm ++ ("(" ++ ptext))) ");" ""
      ", const RecordObject& record_obj) \x7b\n" ')' [';'] rfl hAs (by decide)]
    rw [append_empty_str, hsplitS]
    simp [String.append_assoc]
  constructor
  · intro hex
    constructor
    · unfold headerDeclOf headerDeclFrom
      dsimp only
      rw [hcommonH, if_pos hex]
      rw [replace_once (("void PostCallRecord" ++ (nm ++ ("(" ++ ptext))) ++
        ", const RecordObject& record_obj") ")" " override;\n\n" ", void* state_data)" ')'
        [] rfl hA2h (by decide)]
      have hmerge : (", const RecordObject& record_obj" ++ (", void* state_data)" ++
          " override;\n\n") : String) =
          ", const RecordObject& record_obj, void* state_data) override;\n\n" := by decide
      rw [← hmerge]
      simp [String.append_assoc]
    · unfold sourceSigOf
      dsimp only
      rw [hcommonS, if_pos hex]
      rw [replace_once (("void BestPractices::PostCallRecord" ++ (nm ++ ("(" ++ ptext))) ++
        ", const RecordObject& record_obj") ")" " \x7b\n" ", void* state_data)" ')'
        [] rfl hA2s (by decide)]
      have hmerge : (", const RecordObject& record_obj" ++ (", void* state_data)" ++
          " \x7b\n") : String) =
          ", const RecordObject& record_obj, void* state_data) \x7b\n" := by decide
      rw [← hmerge]
      simp [String.append_assoc]
  · intro hex
    constructor
    · unfold headerDeclOf headerDeclFrom
      dsimp only
      rw [hcommonH, if_neg (by rw [hex]; exact Bool.false_ne_true)]
      have hmerge : (", const RecordObject& record_obj" ++ (")" ++ " override;\n\n") : String) =
          ", const RecordObject& record_obj) override;\n\n" := by decide
      rw [← hmerge]
      simp [String.append_assoc]
    · unfold sourceSigOf
      dsimp only
      rw [hcommonS, if_neg (by rw [hex]; exact Bool.false_ne_true)]
      have hmerge : (", const RecordObject& record_obj" ++ (")" ++ " \x7b\n") : String) =
          ", const RecordObject& record_obj) \x7b\n" := by decide
      rw [← hmerge]
      simp [String.append_assoc]

/-- C8 witness: `vkCreateShaderModule` (in the list) gets `state_data`
after `record_obj` in both artifacts; `vkEnumeratePhysicalDevices` (not
in the list) does not. -/
theorem c8_witness :
    headerDeclOf cmdSM =
      "void PostCallRecordCreateShaderModule(VkDevice device, const VkShaderModuleCreateInfo* pCreateInfo, const VkAllocationCallbacks* pAllocator, VkShaderModule* pShaderModule, const RecordObject& record_obj, void* state_data) override;\n\n" ∧
    sourceSigOf cmdSM =
      "void BestPractices::PostCallRecordCreateShaderModule(VkDevice device, const VkShaderModuleCreateInfo* pCreateInfo, const VkAllocationCallbacks* pAllocator, VkShaderModule* pShaderModule, const RecordObject& record_obj, void* state_data) \x7b\n" ∧
    headerDeclOf cmdEnumPD =
      "void PostCallRecordEnumeratePhysicalDevices(VkInstance instance, uint32_t* pPhysicalDeviceCount, VkPhysicalDevice* pPhysicalDevices, const RecordObject& record_obj) override;\n\n" := by
  have h1 := c8_extra_trailing_parameter cmdSM "CreateShaderModule"
    "VkDevice device, const VkShaderModuleCreateInfo* pCreateInfo, const VkAllocationCallbacks* pAllocator, VkShaderModule* pShaderModule"
    (by decide) (by decide) (by decide)
  have h2 := c8_extra_trailing_parameter cmdEnumPD "EnumeratePhysicalDevices"
    "VkInstance instance, uint32_t* pPhysicalDeviceCount, VkPhysicalDevice* pPhysicalDevices"
    (by decide) (by decide) (by decide)
  refine ⟨?_, ?_, ?_⟩
  · rw [(h1.1 (by decide)).1]
    decide
  · rw [(h1.1 (by decide)).2]
    decide
  · rw [(h2.2 (by decide)).1]
    decide
